import Mathlib

/-!
A shallow embedding of the `payway-js` payment-gateway client SDK
(`src/index.js`, which contains two successive revisions of the library),
together with theorems checking the library's specification against it.

Machine integers are modelled as `Nat` with explicit reduction `% 2 ^ 64`
where 64-bit overflow matters; JavaScript values are modelled by the
inductive `JVal`; the HMAC-SHA512 / base64 pipeline used by
`create_hash` is implemented in full so that known-answer fixtures can
be checked by kernel reduction.
-/

namespace PayWay

/-! ## SHA-512, HMAC-SHA512 and base64 (the `node:crypto` / `Buffer` collaborators) -/

/-- 2^64, the modulus for 64-bit machine words. -/
def w64 : Nat := 2 ^ 64

/-- 64-bit addition. -/
def add64 (a b : Nat) : Nat := (a + b) % w64

/-- 64-bit rotate right. -/
def rotr64 (x n : Nat) : Nat := ((x >>> n) ||| (x <<< (64 - n))) % w64

/-- Right shift (no wraparound needed for x < 2^64). -/
def shr64 (x n : Nat) : Nat := x >>> n

/-- 64-bit bitwise complement. -/
def not64 (x : Nat) : Nat := x ^^^ (w64 - 1)

/-- The 80 SHA-512 round constants (FIPS 180-4), each given as its two
32-bit big-endian halves. -/
def shaKHalves : List (Nat × Nat) :=
  [(0x428a2f98, 0xd728ae22), (0x71374491, 0x23ef65cd), (0xb5c0fbcf, 0xec4d3b2f),
   (0xe9b5dba5, 0x8189dbbc), (0x3956c25b, 0xf348b538), (0x59f111f1, 0xb605d019),
   (0x923f82a4, 0xaf194f9b), (0xab1c5ed5, 0xda6d8118), (0xd807aa98, 0xa3030242),
   (0x12835b01, 0x45706fbe), (0x243185be, 0x4ee4b28c), (0x550c7dc3, 0xd5ffb4e2),
   (0x72be5d74, 0xf27b896f), (0x80deb1fe, 0x3b1696b1), (0x9bdc06a7, 0x25c71235),
   (0xc19bf174, 0xcf692694), (0xe49b69c1, 0x9ef14ad2), (0xefbe4786, 0x384f25e3),
   (0x0fc19dc6, 0x8b8cd5b5), (0x240ca1cc, 0x77ac9c65), (0x2de92c6f, 0x592b0275),
   (0x4a7484aa, 0x6ea6e483), (0x5cb0a9dc, 0xbd41fbd4), (0x76f988da, 0x831153b5),
   (0x983e5152, 0xee66dfab), (0xa831c66d, 0x2db43210), (0xb00327c8, 0x98fb213f),
   (0xbf597fc7, 0xbeef0ee4), (0xc6e00bf3, 0x3da88fc2), (0xd5a79147, 0x930aa725),
   (0x06ca6351, 0xe003826f), (0x14292967, 0x0a0e6e70), (0x27b70a85, 0x46d22ffc),
   (0x2e1b2138, 0x5c26c926), (0x4d2c6dfc, 0x5ac42aed), (0x53380d13, 0x9d95b3df),
   (0x650a7354, 0x8baf63de), (0x766a0abb, 0x3c77b2a8), (0x81c2c92e, 0x47edaee6),
   (0x92722c85, 0x1482353b), (0xa2bfe8a1, 0x4cf10364), (0xa81a664b, 0xbc423001),
   (0xc24b8b70, 0xd0f89791), (0xc76c51a3, 0x0654be30), (0xd192e819, 0xd6ef5218),
   (0xd6990624, 0x5565a910), (0xf40e3585, 0x5771202a), (0x106aa070, 0x32bbd1b8),
   (0x19a4c116, 0xb8d2d0c8), (0x1e376c08, 0x5141ab53), (0x2748774c, 0xdf8eeb99),
   (0x34b0bcb5, 0xe19b48a8), (0x391c0cb3, 0xc5c95a63), (0x4ed8aa4a, 0xe3418acb),
   (0x5b9cca4f, 0x7763e373), (0x682e6ff3, 0xd6b2b8a3), (0x748f82ee, 0x5defb2fc),
   (0x78a5636f, 0x43172f60), (0x84c87814, 0xa1f0ab72), (0x8cc70208, 0x1a6439ec),
   (0x90befffa, 0x23631e28), (0xa4506ceb, 0xde82bde9), (0xbef9a3f7, 0xb2c67915),
   (0xc67178f2, 0xe372532b), (0xca273ece, 0xea26619c), (0xd186b8c7, 0x21c0c207),
   (0xeada7dd6, 0xcde0eb1e), (0xf57d4f7f, 0xee6ed178), (0x06f067aa, 0x72176fba),
   (0x0a637dc5, 0xa2c898a6), (0x113f9804, 0xbef90dae), (0x1b710b35, 0x131c471b),
   (0x28db77f5, 0x23047d84), (0x32caab7b, 0x40c72493), (0x3c9ebe0a, 0x15c9bebc),
   (0x431d67c4, 0x9c100d4c), (0x4cc5d4be, 0xcb3e42b6), (0x597f299c, 0xfc657e2a),
   (0x5fcb6fab, 0x3ad6faec), (0x6c44198c, 0x4a475817)]

/-- The 80 SHA-512 round constants as 64-bit words. -/
def shaK : List Nat := shaKHalves.map (fun p => p.1 * 4294967296 + p.2)

/-- SHA-512 big Sigma-0. -/
def bigSigma0 (x : Nat) : Nat := rotr64 x 28 ^^^ rotr64 x 34 ^^^ rotr64 x 39

/-- SHA-512 big Sigma-1. -/
def bigSigma1 (x : Nat) : Nat := rotr64 x 14 ^^^ rotr64 x 18 ^^^ rotr64 x 41

/-- SHA-512 small sigma-0. -/
def smallSigma0 (x : Nat) : Nat := rotr64 x 1 ^^^ rotr64 x 8 ^^^ shr64 x 7

/-- SHA-512 small sigma-1. -/
def smallSigma1 (x : Nat) : Nat := rotr64 x 19 ^^^ rotr64 x 61 ^^^ shr64 x 6

/-- SHA-512 choice function. -/
def shaCh (e f g : Nat) : Nat := (e &&& f) ^^^ (not64 e &&& g)

/-- SHA-512 majority function. -/
def shaMaj (a b c : Nat) : Nat := (a &&& b) ^^^ (a &&& c) ^^^ (b &&& c)

/-- Big-endian bytes to a machine word. -/
def bytesToWord (bs : List Nat) : Nat := bs.foldl (fun acc b => acc * 256 + b) 0

/-- Split a 128-byte block into its 16 big-endian 64-bit words. -/
def blockWords : List Nat → List Nat
  | b0 :: b1 :: b2 :: b3 :: b4 :: b5 :: b6 :: b7 :: rest =>
      bytesToWord [b0, b1, b2, b3, b4, b5, b6, b7] :: blockWords rest
  | _ => []

/-- Extend the message schedule by `n` further words; `w` holds the words
computed so far, most recent first. -/
def extendSchedule : Nat → List Nat → List Nat
  | 0, w => w
  | n + 1, w =>
      let w2 := w.getD 1 0
      let w7 := w.getD 6 0
      let w15 := w.getD 14 0
      let w16 := w.getD 15 0
      extendSchedule n ((smallSigma1 w2 + w7 + smallSigma0 w15 + w16) % w64 :: w)

/-- The 80-word SHA-512 message schedule of one block. -/
def schedule (block : List Nat) : List Nat :=
  (extendSchedule 64 (blockWords block).reverse).reverse

/-- The eight 64-bit working variables of SHA-512. -/
structure Digest8 where
  a : Nat
  b : Nat
  c : Nat
  d : Nat
  e : Nat
  f : Nat
  g : Nat
  h : Nat
deriving DecidableEq

/-- One SHA-512 round. -/
def shaRound (st : Digest8) (kt wt : Nat) : Digest8 :=
  let t1 := (st.h + bigSigma1 st.e + shaCh st.e st.f st.g + kt + wt) % w64
  let t2 := (bigSigma0 st.a + shaMaj st.a st.b st.c) % w64
  { a := (t1 + t2) % w64, b := st.a, c := st.b, d := st.c,
    e := (st.d + t1) % w64, f := st.e, g := st.f, h := st.g }

/-- Run the 80 rounds over the schedule. -/
def shaRounds : List Nat → List Nat → Digest8 → Digest8
  | k :: ks, w :: ws, st => shaRounds ks ws (shaRound st k w)
  | _, _, st => st

/-- SHA-512 compression function for one 128-byte block. -/
def compress (st : Digest8) (block : List Nat) : Digest8 :=
  let r := shaRounds shaK (schedule block) st
  { a := add64 st.a r.a, b := add64 st.b r.b, c := add64 st.c r.c, d := add64 st.d r.d,
    e := add64 st.e r.e, f := add64 st.f r.f, g := add64 st.g r.g, h := add64 st.h r.h }

/-- SHA-512 initial hash value (FIPS 180-4), each word given by its two
32-bit big-endian halves. -/
def initDigest : Digest8 :=
  { a := 0x6a09e667 * 4294967296 + 0xf3bcc908,
    b := 0xbb67ae85 * 4294967296 + 0x84caa73b,
    c := 0x3c6ef372 * 4294967296 + 0xfe94f82b,
    d := 0xa54ff53a * 4294967296 + 0x5f1d36f1,
    e := 0x510e527f * 4294967296 + 0xade682d1,
    f := 0x9b05688c * 4294967296 + 0x2b3e6c1f,
    g := 0x1f83d9ab * 4294967296 + 0xfb41bd6b,
    h := 0x5be0cd19 * 4294967296 + 0x137e2179 }

/-- SHA-512 padding: append 0x80, zero bytes, and the 128-bit big-endian
bit length, reaching a multiple of 128 bytes. -/
def shaPad (msg : List Nat) : List Nat :=
  let len := msg.length
  let zeros := (128 - (len + 17) % 128) % 128
  msg ++ [0x80] ++ List.replicate zeros 0 ++
    (List.range 16).map (fun i => (len * 8) >>> ((15 - i) * 8) % 256)

/-- Split into 128-byte blocks (fuel-based so the kernel can reduce it). -/
def chunksAux : Nat → List Nat → List (List Nat)
  | 0, _ => []
  | _, [] => []
  | fuel + 1, b :: l => (b :: l).take 128 :: chunksAux fuel ((b :: l).drop 128)

/-- Split a padded message into 128-byte blocks. -/
def chunks (l : List Nat) : List (List Nat) := chunksAux l.length l

/-- A 64-bit word as 8 big-endian bytes. -/
def wordToBytes (x : Nat) : List Nat :=
  (List.range 8).map (fun i => x >>> ((7 - i) * 8) % 256)

/-- SHA-512 of a byte sequence (bytes as `Nat` below 256). -/
def sha512 (msg : List Nat) : List Nat :=
  let final := (chunks (shaPad msg)).foldl compress initDigest
  wordToBytes final.a ++ wordToBytes final.b ++ wordToBytes final.c ++ wordToBytes final.d ++
    wordToBytes final.e ++ wordToBytes final.f ++ wordToBytes final.g ++ wordToBytes final.h

/-- HMAC-SHA512 (RFC 2104): block size 128 bytes, inner pad 0x36, outer pad 0x5c. -/
def hmacSha512 (key msg : List Nat) : List Nat :=
  let k := if key.length > 128 then sha512 key else key
  let kpad := k ++ List.replicate (128 - k.length) 0
  sha512 (kpad.map (fun b => b ^^^ 0x5c) ++ sha512 (kpad.map (fun b => b ^^^ 0x36) ++ msg))

/-- The standard base64 alphabet. -/
def b64Alphabet : List Char :=
  "ABCDEFGHIJKLMNOPQRSTUVWXYZabcdefghijklmnopqrstuvwxyz0123456789+/".toList

/-- The base64 digit for a 6-bit value. -/
def b64Char (n : Nat) : Char := b64Alphabet.getD n 'A'

/-- The 6-bit value of a base64 digit. -/
def b64Val (c : Char) : Nat := ((b64Alphabet.indexOf? c).getD 0 : Nat)

/-- Standard base64 encoding (with `=` padding), as a character list. -/
def base64EncodeChars : List Nat → List Char
  | [] => []
  | [b1] => [b64Char (b1 / 4), b64Char (b1 % 4 * 16), '=', '=']
  | [b1, b2] => [b64Char (b1 / 4), b64Char (b1 % 4 * 16 + b2 / 16), b64Char (b2 % 16 * 4), '=']
  | b1 :: b2 :: b3 :: rest =>
      b64Char (b1 / 4) :: b64Char (b1 % 4 * 16 + b2 / 16) ::
        b64Char (b2 % 16 * 4 + b3 / 64) :: b64Char (b3 % 64) :: base64EncodeChars rest

/-- Standard base64 encoding of a byte sequence, as a string. -/
def base64Encode (l : List Nat) : String := String.mk (base64EncodeChars l)

/-- Base64 decoding of a character list (inverse of `base64EncodeChars`
on well-formed input). -/
def base64DecodeChars : List Char → List Nat
  | c1 :: c2 :: c3 :: c4 :: rest =>
      let n1 := b64Val c1
      let n2 := b64Val c2
      if c3 = '=' then [n1 * 4 + n2 / 16]
      else
        let n3 := b64Val c3
        if c4 = '=' then [n1 * 4 + n2 / 16, n2 % 16 * 16 + n3 / 4]
        else (n1 * 4 + n2 / 16) :: (n2 % 16 * 16 + n3 / 4) :: (n3 % 4 * 64 + b64Val c4) ::
          base64DecodeChars rest
  | _ => []

/-- Base64 decoding of a string to bytes. -/
def base64Decode (s : String) : List Nat := base64DecodeChars s.toList

/-- UTF-8 encoding of one code point. -/
def utf8EncodeChar (c : Char) : List Nat :=
  if c.toNat < 0x80 then [c.toNat]
  else if c.toNat < 0x800 then [0xc0 + c.toNat / 64, 0x80 + c.toNat % 64]
  else if c.toNat < 0x10000 then
    [0xe0 + c.toNat / 4096, 0x80 + c.toNat / 64 % 64, 0x80 + c.toNat % 64]
  else
    [0xf0 + c.toNat / 262144, 0x80 + c.toNat / 4096 % 64, 0x80 + c.toNat / 64 % 64,
      0x80 + c.toNat % 64]

/-- The UTF-8 bytes of a string. -/
def utf8Bytes (s : String) : List Nat := (s.toList.map utf8EncodeChar).flatten

/-! ## A model of the JavaScript values the SDK manipulates

Numbers are modelled as integers (no claim depends on float formatting);
objects and arrays carry their entries in order. -/

/-- A JavaScript value. -/
inductive JVal where
  | null
  | undefinedVal
  | bool (b : Bool)
  | num (n : Int)
  | str (s : String)
  | arr (elems : List JVal)
  | obj (fields : List (String × JVal))

/-- JavaScript `typeof` (for the value kinds modelled here). -/
def typeof : JVal → String
  | .null => "object"
  | .undefinedVal => "undefined"
  | .bool _ => "boolean"
  | .num _ => "number"
  | .str _ => "string"
  | .arr _ => "object"
  | .obj _ => "object"

/-- JavaScript truthiness. -/
def truthy : JVal → Bool
  | .null => false
  | .undefinedVal => false
  | .bool b => b
  | .num n => n != 0
  | .str s => s != ""
  | .arr _ => true
  | .obj _ => true

/-- JavaScript loose equality with null (`v == null`, also `v != null`
negated): true exactly for `null` and `undefined`. -/
def isNullish : JVal → Bool
  | .null => true
  | .undefinedVal => true
  | _ => false

mutual

/-- JavaScript `String(v)` coercion. -/
def jsToString : JVal → String
  | .null => "null"
  | .undefinedVal => "undefined"
  | .bool true => "true"
  | .bool false => "false"
  | .num n => toString n
  | .str s => s
  | .arr es => jsArrToString es
  | .obj _ => "[object Object]"

/-- `Array.prototype.toString`: elements joined by commas, with null and
undefined elements rendered as the empty string. -/
def jsArrToString : List JVal → String
  | [] => ""
  | [e] => jsElemToString e
  | e :: rest => jsElemToString e ++ "," ++ jsArrToString rest

/-- One array element inside `Array.prototype.toString`. -/
def jsElemToString : JVal → String
  | .null => ""
  | .undefinedVal => ""
  | .bool true => "true"
  | .bool false => "false"
  | .num n => toString n
  | .str s => s
  | .arr es => jsArrToString es
  | .obj _ => "[object Object]"

end

/-- Property access `v.k` on the modelled values: a lookup on objects,
`undefined` everywhere else. -/
def getProp (v : JVal) (k : String) : JVal :=
  match v with
  | .obj fields => ((fields.find? (fun kv => kv.1 == k)).map (fun kv => kv.2)).getD .undefinedVal
  | _ => .undefinedVal

/-- Optional chaining `v?.k`. -/
def optChainProp (v : JVal) (k : String) : JVal :=
  if isNullish v then .undefinedVal else getProp v k

/-- JavaScript `a || b`. -/
def jsOr (a b : JVal) : JVal := if truthy a then a else b

/-- JavaScript `a ?? b`. -/
def nullishCoalesce (a b : JVal) : JVal := if isNullish a then b else a

/-- A lowercase hexadecimal digit. -/
def hexDigit (n : Nat) : Char := "0123456789abcdef".toList.getD n '0'

/-- Escape one character for a JSON string literal. -/
def jsonEscapeChar (c : Char) : String :=
  if c = '"' then "\\\""
  else if c = '\\' then "\\\\"
  else if c = '\n' then "\\n"
  else if c = '\r' then "\\r"
  else if c = '\t' then "\\t"
  else if c = '\x08' then "\\b"
  else if c = '\x0c' then "\\f"
  else if c.toNat < 32 then
    "\\u00" ++ String.mk [hexDigit (c.toNat / 16), hexDigit (c.toNat % 16)]
  else String.mk [c]

/-- A JSON string literal. -/
def jsonQuote (s : String) : String :=
  "\"" ++ String.join (s.toList.map jsonEscapeChar) ++ "\""

/-- Join strings with comma separators. -/
def commaJoin : List String → String
  | [] => ""
  | [s] => s
  | s :: rest => s ++ "," ++ commaJoin rest

mutual

/-- `JSON.stringify` on the modelled values.  Call sites in the source
only apply it to non-null objects and arrays; on `undefined` (where the
real `JSON.stringify` returns no string at all) this model is unused. -/
def jsonStringify : JVal → String
  | .null => "null"
  | .undefinedVal => "null"
  | .bool true => "true"
  | .bool false => "false"
  | .num n => toString n
  | .str s => jsonQuote s
  | .arr es => "[" ++ commaJoin (jsonArrList es) ++ "]"
  | .obj fs => "\x7b" ++ commaJoin (jsonObjList fs) ++ "\x7d"

/-- Array elements in `JSON.stringify` (an undefined element becomes `null`,
which `jsonStringify` already yields on `undefinedVal`). -/
def jsonArrList : List JVal → List String
  | [] => []
  | e :: rest => jsonStringify e :: jsonArrList rest

/-- Object fields in `JSON.stringify` (fields whose value is undefined
are omitted). -/
def jsonObjList : List (String × JVal) → List String
  | [] => []
  | (_, .undefinedVal) :: rest => jsonObjList rest
  | (k, v) :: rest => (jsonQuote k ++ ":" ++ jsonStringify v) :: jsonObjList rest

end

/-- JavaScript strict equality `v === "s"` against a string literal. -/
def strictEqStr (v : JVal) (s : String) : Bool :=
  match v with
  | .str t => t == s
  | _ => false

/-- JavaScript strict equality `v === undefined`. -/
def strictEqUndefinedVal : JVal → Bool
  | .undefinedVal => true
  | _ => false

/-- JavaScript strict equality `v === null`. -/
def strictEqNull : JVal → Bool
  | .null => true
  | _ => false

/-! ## The client (second revision in `src/index.js`, lines 374-713)

`req_time` (the `date-fns`-formatted timestamp) is passed in as a string:
date formatting is an out-of-scope collaborator.  The transport is
modelled by a `TransportOutcome` describing what the injected HTTP client
did for the call. -/

/-- `trim(value)`: trims string values, returns anything else unchanged. -/
def trim : JVal → JVal
  | .str s => .str s.trim
  | v => v

/-- `create_hash(values)`: HMAC-SHA512 of the separator-free concatenation
of `values`, keyed by the client's `api_key`, base64-encoded. -/
def create_hash (api_key : String) (values : List String) : String :=
  base64Encode (hmacSha512 (utf8Bytes api_key) (utf8Bytes (String.join values)))

/-- The local `base64(d)` helper: `Buffer.from(d).toString("base64")`
on a string argument. -/
def base64 (d : String) : String := base64Encode (utf8Bytes d)

/-- `create_payload(hash_values, body, date)`: drops loose-null body
entries, computes the hash over `[req_time, merchant_id, ...hash_values]`,
and emits the form fields in order with the hash last.  `FormData.append`
coerces each appended value to a string. -/
def create_payload (api_key merchant_id : String) (hash_values : List String)
    (body : List (String × JVal)) (req_time : String) : List (String × String) :=
  let filtered := body.filter (fun kv => !(isNullish kv.2))
  let hash := create_hash api_key ([req_time, merchant_id] ++ hash_values)
  ("req_time", req_time) :: ("merchant_id", merchant_id) ::
    filtered.map (fun kv => (kv.1, jsToString kv.2)) ++ [("hash", hash)]

/-- The named parameters of `create_transaction`; an omitted parameter
is `undefinedVal`. -/
structure CreateTransactionParams where
  tran_id : JVal := .undefinedVal
  payment_option : JVal := .undefinedVal
  amount : JVal := .undefinedVal
  currency : JVal := .undefinedVal
  return_url : JVal := .undefinedVal
  return_deeplink : JVal := .undefinedVal
  continue_success_url : JVal := .undefinedVal
  pwt : JVal := .undefinedVal
  firstname : JVal := .undefinedVal
  lastname : JVal := .undefinedVal
  email : JVal := .undefinedVal
  phone : JVal := .undefinedVal
  items : JVal := .undefinedVal
  type : JVal := .undefinedVal
  custom_fields : JVal := .undefinedVal

/-- The destructuring default `type = "purchase"`: applied when the
caller passed `undefined` (and only then). -/
def typeWithDefault (p : CreateTransactionParams) : JVal :=
  if strictEqUndefinedVal p.type then .str "purchase" else p.type

/-- The validation block of `create_transaction`: the message of the first
failing check, if any. -/
def validate_create_transaction (p : CreateTransactionParams) : Option String :=
  if !truthy p.tran_id || typeof p.tran_id != "string" then
    some "create_transaction: tran_id is required and must be a string"
  else if !truthy p.payment_option || typeof p.payment_option != "string" then
    some "create_transaction: payment_option is required and must be a string"
  else if strictEqUndefinedVal p.amount || strictEqNull p.amount then
    some "create_transaction: amount is required"
  else if !truthy p.currency ||
      (!strictEqStr p.currency "USD" && !strictEqStr p.currency "KHR") then
    some "create_transaction: currency is required and must be \"USD\" or \"KHR\""
  else
    none

/-- `encoded_return_url`: base64-encode string values, pass anything
else through. -/
def encode_return_url (v : JVal) : JVal :=
  if typeof v == "string" then .str (base64 (jsToString v)) else v

/-- `encoded_return_deeplink`: base64-encode strings directly; JSON-encode
then base64-encode non-null objects; pass anything else through. -/
def encode_return_deeplink (v : JVal) : JVal :=
  if typeof v == "string" then .str (base64 (jsToString v))
  else if typeof v == "object" && !(isNullish v) then .str (base64 (jsonStringify v))
  else v

/-- `encoded_items`: JSON-encode then base64-encode non-null objects;
base64-encode strings; pass anything else through. -/
def encode_items (v : JVal) : JVal :=
  if typeof v == "object" && !(isNullish v) then .str (base64 (jsonStringify v))
  else if typeof v == "string" then .str (base64 (jsToString v))
  else v

/-- The `payloadData` object literal of `create_transaction`, in its
insertion order. -/
def payloadData (p : CreateTransactionParams) : List (String × JVal) :=
  [("tran_id", p.tran_id),
   ("amount", p.amount),
   ("pwt", p.pwt),
   ("firstname", trim p.firstname),
   ("lastname", trim p.lastname),
   ("email", trim p.email),
   ("phone", trim p.phone),
   ("items", encode_items p.items),
   ("type", typeWithDefault p),
   ("payment_option", p.payment_option),
   ("return_url", encode_return_url p.return_url),
   ("continue_success_url", p.continue_success_url),
   ("return_deeplink", encode_return_deeplink p.return_deeplink),
   ("currency", p.currency),
   ("custom_fields", p.custom_fields)]

/-- The final `.map((v) => (v == null ? "" : String(v)))` of `hashValues`. -/
def hashCoerce (v : JVal) : String := if isNullish v then "" else jsToString v

/-- The `hashValues` array of `create_transaction`: fifteen payload
values in the protocol order, `??`-defaulted to the empty string and
coerced to strings. -/
def hashValues (p : CreateTransactionParams) : List String :=
  ([p.tran_id,
    p.amount,
    nullishCoalesce (encode_items p.items) (.str ""),
    nullishCoalesce (trim p.firstname) (.str ""),
    nullishCoalesce (trim p.lastname) (.str ""),
    nullishCoalesce (trim p.email) (.str ""),
    nullishCoalesce (trim p.phone) (.str ""),
    nullishCoalesce (typeWithDefault p) (.str ""),
    nullishCoalesce p.payment_option (.str ""),
    nullishCoalesce p.continue_success_url (.str ""),
    nullishCoalesce (encode_return_url p.return_url) (.str ""),
    nullishCoalesce (encode_return_deeplink p.return_deeplink) (.str ""),
    nullishCoalesce p.currency (.str ""),
    nullishCoalesce p.custom_fields (.str ""),
    nullishCoalesce p.pwt (.str "")]).map hashCoerce

/-- The multipart payload `create_transaction` posts to the purchase
endpoint. -/
def create_transaction_payload (api_key merchant_id req_time : String)
    (p : CreateTransactionParams) : List (String × String) :=
  create_payload api_key merchant_id (hashValues p) (payloadData p) req_time

/-! ## Errors and the uniform failure mapping -/

/-- The `error.response` shape of an axios failure: HTTP status and body. -/
structure AxResponse where
  status : Int
  data : JVal

/-- A failure raised by the transport: `response` when the gateway
answered with an error status, `request` truthiness when a request was
made, and the underlying `Error`'s message. -/
structure AxiosErr where
  response : Option AxResponse
  request : Bool
  message : String

/-- The error values the client raises: `PayWayError` carries
`errorCode`/`statusCode`/`details`; `PayWayRequestError` carries the
original transport failure (its inherited `errorCode`/`statusCode`/
`details` are all null, from `super(message)`). -/
inductive PayWayErr where
  | payWayError (message : String) (errorCode : JVal) (statusCode : Option Int) (details : JVal)
  | payWayRequestError (message : String) (originalError : AxiosErr)

/-- The `PayWayError` constructor body: `errorCode = response?.code || null`,
`details = response || null`. -/
def mkPayWayError (message : String) (response : JVal) (statusCode : Option Int) : PayWayErr :=
  .payWayError message (jsOr (optChainProp response "code") .null) statusCode
    (jsOr response .null)

/-- The `message` field of a raised error. -/
def PayWayErr.message : PayWayErr → String
  | .payWayError m _ _ _ => m
  | .payWayRequestError m _ => m

/-- The `errorCode` field of a raised error. -/
def PayWayErr.errorCode : PayWayErr → JVal
  | .payWayError _ ec _ _ => ec
  | .payWayRequestError _ _ => .null

/-- The `statusCode` field of a raised error. -/
def PayWayErr.statusCode : PayWayErr → Option Int
  | .payWayError _ _ sc _ => sc
  | .payWayRequestError _ _ => none

/-- The `details` field of a raised error. -/
def PayWayErr.details : PayWayErr → JVal
  | .payWayError _ _ _ d => d
  | .payWayRequestError _ _ => .null

/-- `_handle_error(error)`: the uniform mapping of transport failures,
shared by all three operations of the second revision. -/
def handle_error (error : AxiosErr) : PayWayErr :=
  match error.response with
  | some r =>
      mkPayWayError
        ("PayWay API error: " ++
          jsToString (jsOr (optChainProp r.data "message")
            (jsOr (.str error.message) (.str "Unknown error"))))
        r.data (some r.status)
  | none =>
      if error.request then
        .payWayRequestError "Network error: No response received from PayWay API" error
      else
        .payWayRequestError ("Request error: " ++ error.message) error

/-- What the injected transport did for one call. -/
inductive TransportOutcome where
  | success (data : JVal)
  | failure (error : AxiosErr)

/-- An error escaping an operation: either the plain validation `Error`
(message only, no errorCode/statusCode/details) or a raised
`PayWayError`/`PayWayRequestError`. -/
inductive ClientError where
  | validationErr (message : String)
  | apiErr (e : PayWayErr)

/-- One full `create_transaction` call: validate, build the signed
payload, dispatch on the transport's outcome.  On success the call
resolves to `response.data`; the payload is returned alongside it to
keep the transmitted fields observable. -/
def create_transaction_run (api_key merchant_id req_time : String)
    (p : CreateTransactionParams) (tr : TransportOutcome) :
    Except ClientError (List (String × String) × JVal) :=
  match validate_create_transaction p with
  | some m => .error (.validationErr m)
  | none =>
      let payload := create_transaction_payload api_key merchant_id req_time p
      match tr with
      | .success d => .ok (payload, d)
      | .failure e => .error (.apiErr (handle_error e))

/-- The validation of `check_transaction`. -/
def validate_check_transaction (tran_id : JVal) : Option String :=
  if !truthy tran_id || typeof tran_id != "string" then
    some "check_transaction: tran_id is required and must be a string"
  else
    none

/-- One full `check_transaction` call. -/
def check_transaction_run (api_key merchant_id req_time : String)
    (tran_id : JVal) (tr : TransportOutcome) :
    Except ClientError (List (String × String) × JVal) :=
  match validate_check_transaction tran_id with
  | some m => .error (.validationErr m)
  | none =>
      let payload := create_payload api_key merchant_id [jsToString tran_id]
        [("tran_id", tran_id)] req_time
      match tr with
      | .success d => .ok (payload, d)
      | .failure e => .error (.apiErr (handle_error e))

/-- The named parameters of `transaction_list`; an omitted parameter is
`undefinedVal`. -/
structure TransactionListParams where
  from_date : JVal := .undefinedVal
  to_date : JVal := .undefinedVal
  from_amount : JVal := .undefinedVal
  to_amount : JVal := .undefinedVal
  status : JVal := .undefinedVal

/-- The validation of `transaction_list`. -/
def validate_transaction_list (p : TransactionListParams) : Option String :=
  if truthy p.from_date && typeof p.from_date != "string" then
    some "transaction_list: from_date must be a string in YYYYMMDD format"
  else if truthy p.to_date && typeof p.to_date != "string" then
    some "transaction_list: to_date must be a string in YYYYMMDD format"
  else
    none

/-- The `payloadData` of `transaction_list`. -/
def transaction_list_payloadData (p : TransactionListParams) : List (String × JVal) :=
  [("from_date", p.from_date),
   ("to_date", p.to_date),
   ("from_amount", p.from_amount),
   ("to_amount", p.to_amount),
   ("status", p.status)]

/-- The `hashValues` of `transaction_list`. -/
def transaction_list_hashValues (p : TransactionListParams) : List String :=
  ([nullishCoalesce p.from_date (.str ""),
    nullishCoalesce p.to_date (.str ""),
    nullishCoalesce p.from_amount (.str ""),
    nullishCoalesce p.to_amount (.str ""),
    nullishCoalesce p.status (.str "")]).map hashCoerce

/-- One full `transaction_list` call. -/
def transaction_list_run (api_key merchant_id req_time : String)
    (p : TransactionListParams) (tr : TransportOutcome) :
    Except ClientError (List (String × String) × JVal) :=
  match validate_transaction_list p with
  | some m => .error (.validationErr m)
  | none =>
      let payload := create_payload api_key merchant_id
        (transaction_list_hashValues p) (transaction_list_payloadData p) req_time
      match tr with
      | .success d => .ok (payload, d)
      | .failure e => .error (.apiErr (handle_error e))

/-- The error component of a call's outcome. -/
def errOf {α : Type} : Except ClientError α → Option ClientError
  | .error e => some e
  | .ok _ => none

/-! ## The first revision (`src/index.js`, lines 1-373)

It differs in `create_payload`: the hash input is derived from the
null-filtered body values themselves (`[req_time, merchant_id,
...Object.values(body)]`), rather than taken as an explicit argument.
`Array.prototype.join` coerces each value with `String(v)` and renders
null/undefined as the empty string, which is `hashCoerce`. -/

/-- The first revision's `create_payload(body, date)`. -/
def v1_create_payload (api_key merchant_id : String)
    (body : List (String × JVal)) (req_time : String) : List (String × String) :=
  let filtered := body.filter (fun kv => !(isNullish kv.2))
  let hash := create_hash api_key
    ([req_time, merchant_id] ++ filtered.map (fun kv => hashCoerce kv.2))
  ("req_time", req_time) :: ("merchant_id", merchant_id) ::
    filtered.map (fun kv => (kv.1, jsToString kv.2)) ++ [("hash", hash)]

/-- The body-object literal of the first revision's `create_transaction`
(no `items`, `type` or `custom_fields`). -/
def v1_payloadData (p : CreateTransactionParams) : List (String × JVal) :=
  [("tran_id", p.tran_id),
   ("amount", p.amount),
   ("pwt", p.pwt),
   ("firstname", trim p.firstname),
   ("lastname", trim p.lastname),
   ("email", trim p.email),
   ("phone", trim p.phone),
   ("payment_option", p.payment_option),
   ("return_url", encode_return_url p.return_url),
   ("continue_success_url", p.continue_success_url),
   ("return_deeplink", encode_return_deeplink p.return_deeplink),
   ("currency", p.currency)]

/-- The multipart payload the first revision's `create_transaction` posts. -/
def v1_create_transaction_payload (api_key merchant_id req_time : String)
    (p : CreateTransactionParams) : List (String × String) :=
  v1_create_payload api_key merchant_id (v1_payloadData p) req_time

/-- The `hash` field of a payload. -/
def hashField (fields : List (String × String)) : Option String :=
  (fields.find? (fun kv => kv.1 == "hash")).map (fun kv => kv.2)

/-- A minimal valid `create_transaction` input with every optional field
omitted. -/
def minimalParams : CreateTransactionParams :=
  { tran_id := .str "t", payment_option := .str "abapay",
    amount := .num 1, currency := .str "USD" }

/-! ## Specification-side definitions and helper lemmas -/

/-- The specification's hash-input coercion: null/undefined become the
empty string, everything else is coerced with `String(v)`. -/
def specCoerce : JVal → String
  | .null => ""
  | .undefinedVal => ""
  | .bool b => jsToString (.bool b)
  | .num n => jsToString (.num n)
  | .str s => s
  | .arr es => jsToString (.arr es)
  | .obj fs => jsToString (.obj fs)

/-- The code's trailing `.map((v) => (v == null ? "" : String(v)))` agrees
with the specification's coercion. -/
theorem hashCoerce_eq_specCoerce (v : JVal) : hashCoerce v = specCoerce v := by
  cases v <;> rfl

/-- Defaulting with `?? ""` before the string coercion changes nothing. -/
theorem hashCoerce_coalesce (v : JVal) :
    hashCoerce (nullishCoalesce v (.str "")) = specCoerce v := by
  cases v <;> rfl

/-- Defaulting with `?? ""` is invisible to the specification coercion. -/
theorem specCoerce_coalesce (v : JVal) :
    specCoerce (nullishCoalesce v (.str "")) = specCoerce v := by
  cases v <;> rfl

/-- The last element of the field lists built by `create_payload`. -/
theorem getLast_cons_cons_append {α : Type} (a b : α) (l : List α) (x : α) :
    (a :: b :: (l ++ [x])).getLast? = some x := by
  rw [← List.cons_append, ← List.cons_append, List.getLast?_concat]

set_option maxRecDepth 100000

/-- Claim C10: the two revisions embedded in `src/index.js` are not
hash-equivalent.  On the valid input `minimalParams` (all optional fields
omitted) the first revision's `create_transaction` and the second
revision's compute different `hash` fields, with the client credentials
and request time held equal. -/

theorem two_revisions_hash_differ :
    validate_create_transaction minimalParams = none ∧
    hashField (v1_create_transaction_payload "1" "1" "20240101000000" minimalParams) ≠
      hashField (create_transaction_payload "1" "1" "20240101000000" minimalParams) := by
  constructor
  · rfl
  · decide

/-- Claim C1: for every valid call to `create_transaction` the sequence of
values hashed is exactly `[req_time, merchant_id, tran_id, amount, items,
firstname, lastname, email, phone, type, payment_option,
continue_success_url, return_url (encoded), return_deeplink (encoded),
currency, custom_fields, pwt]` — the normalized payload values, each
coerced to a string with null/undefined becoming the empty string — and
the transmitted `hash` field is `create_hash` of exactly that sequence. -/
theorem create_transaction_hash_input_order (k mid rt : String)
    (p : CreateTransactionParams) (hv : validate_create_transaction p = none) :
    [rt, mid] ++ hashValues p =
      [rt, mid,
       specCoerce p.tran_id,
       specCoerce p.amount,
       specCoerce (encode_items p.items),
       specCoerce (trim p.firstname),
       specCoerce (trim p.lastname),
       specCoerce (trim p.email),
       specCoerce (trim p.phone),
       specCoerce (typeWithDefault p),
       specCoerce p.payment_option,
       specCoerce p.continue_success_url,
       specCoerce (encode_return_url p.return_url),
       specCoerce (encode_return_deeplink p.return_deeplink),
       specCoerce p.currency,
       specCoerce p.custom_fields,
       specCoerce p.pwt] ∧
    (create_transaction_payload k mid rt p).getLast? =
      some ("hash", create_hash k ([rt, mid] ++ hashValues p)) := by
  constructor
  · simp [hashValues, hashCoerce_eq_specCoerce, hashCoerce_coalesce, specCoerce_coalesce]
  · simp only [create_transaction_payload, create_payload]
    exact getLast_cons_cons_append _ _ _ _

/-- Witness for C1 at a concrete valid input. -/
theorem create_transaction_hash_input_order_witness :
    validate_create_transaction minimalParams = none ∧
    [("20240101000000" : String), "1"] ++ hashValues minimalParams =
      [("20240101000000" : String), "1",
       specCoerce minimalParams.tran_id,
       specCoerce minimalParams.amount,
       specCoerce (encode_items minimalParams.items),
       specCoerce (trim minimalParams.firstname),
       specCoerce (trim minimalParams.lastname),
       specCoerce (trim minimalParams.email),
       specCoerce (trim minimalParams.phone),
       specCoerce (typeWithDefault minimalParams),
       specCoerce minimalParams.payment_option,
       specCoerce minimalParams.continue_success_url,
       specCoerce (encode_return_url minimalParams.return_url),
       specCoerce (encode_return_deeplink minimalParams.return_deeplink),
       specCoerce minimalParams.currency,
       specCoerce minimalParams.custom_fields,
       specCoerce minimalParams.pwt] :=
  ⟨rfl, (create_transaction_hash_input_order "1" "1" "20240101000000" minimalParams rfl).1⟩

/-- Claim C2: `create_payload` drops exactly the body entries whose value
is null or undefined (keeping explicit `false`, `0` and the empty string)
and emits, in order, `req_time`, `merchant_id`, each surviving body field
in its given order, then the hash of
`[req_time, merchant_id, ...hash_values]` last. -/
theorem create_payload_fields_spec (k mid rt : String) (hvs : List String)
    (body : List (String × JVal)) :
    (∀ v : JVal, (!(isNullish v)) = true ↔ (v ≠ .null ∧ v ≠ .undefinedVal)) ∧
    isNullish (.bool false) = false ∧
    isNullish (.num 0) = false ∧
    isNullish (.str "") = false ∧
    create_payload k mid hvs body rt =
      ("req_time", rt) :: ("merchant_id", mid) ::
        (body.filter (fun kv => !(isNullish kv.2))).map (fun kv => (kv.1, jsToString kv.2)) ++
        [("hash", create_hash k ([rt, mid] ++ hvs))] := by
  refine ⟨?_, rfl, rfl, rfl, rfl⟩
  intro v
  cases v <;> simp [isNullish]

/-- Witness for C2 at the test suite's concrete body
`{a: "a-value", b: "b-value", c: null, d: undefined}`. -/
theorem create_payload_fields_spec_witness :
    create_payload "1" "1" ["a-value", "b-value"]
      [("a", .str "a-value"), ("b", .str "b-value"), ("c", .null), ("d", .undefinedVal)]
      "19700101000000" =
      ("req_time", "19700101000000") :: ("merchant_id", "1") ::
        ([("a", JVal.str "a-value"), ("b", .str "b-value"), ("c", .null),
          ("d", .undefinedVal)].filter (fun kv => !(isNullish kv.2))).map
          (fun kv => (kv.1, jsToString kv.2)) ++
        [("hash", create_hash "1" (["19700101000000", "1"] ++ ["a-value", "b-value"]))] :=
  (create_payload_fields_spec "1" "1" "19700101000000" ["a-value", "b-value"]
    [("a", .str "a-value"), ("b", .str "b-value"), ("c", .null), ("d", .undefinedVal)]).2.2.2.2

/-- Claim C3: `create_hash` is a pure function that concatenates the given
values in order with no separator, HMAC-SHA512s the UTF-8 bytes of the
concatenation under the secret key, and base64-encodes the digest with
padding; on key `"1"` and values `["a","b","c"]` it returns the fixed
known-answer string. -/
theorem create_hash_spec :
    create_hash "1" ["a", "b", "c"] =
      "JcTO3d5PoVoVRPIWjUg9bTRrSTpFhu9JXOLm+nLjrmDatGZuSz9eDv323DX05K1r/BYx60AQVZ+GOWbTS4XUvw==" ∧
    (∀ (k : String) (vs : List String),
      create_hash k vs =
        base64Encode (hmacSha512 (utf8Bytes k) (utf8Bytes (String.join vs)))) ∧
    (∀ (k v1 v2 : String), create_hash k [v1 ++ v2] = create_hash k [v1, v2]) := by
  refine ⟨by decide, fun k vs => rfl, fun k v1 v2 => ?_⟩
  have h : String.join [v1 ++ v2] = String.join [v1, v2] := by
    apply String.ext
    simp
  simp [create_hash, h]

/-- The non-empty-string check `!v || typeof v !== "string"` passes
exactly on non-empty strings. -/
theorem str_check_iff (v : JVal) :
    (!truthy v || typeof v != "string") = false ↔ ∃ s, v = .str s ∧ s ≠ "" := by
  cases v <;> simp [truthy, typeof]

/-- The check `v === undefined || v === null` fires exactly on
null/undefined. -/
theorem amount_check_iff (v : JVal) :
    (strictEqUndefinedVal v || strictEqNull v) = true ↔ (v = .null ∨ v = .undefinedVal) := by
  cases v <;> simp [strictEqUndefinedVal, strictEqNull]

/-- The currency check passes exactly on the strings "USD" and "KHR". -/
theorem currency_check_iff (v : JVal) :
    (!truthy v || (!strictEqStr v "USD" && !strictEqStr v "KHR")) = false ↔
      (v = .str "USD" ∨ v = .str "KHR") := by
  cases v <;> simp [truthy, strictEqStr]
  case str s =>
    constructor
    · rintro ⟨h1, h2⟩
      by_cases hU : s = "USD"
      · exact Or.inl hU
      · exact Or.inr (h2 hU)
    · rintro (rfl | rfl) <;> simp

/-- Claim C5: `create_transaction` raises a validation error —
synchronously, independent of the transport, as the plain error kind that
carries only a message — exactly when a precondition fails: tran_id not a
non-empty string, payment_option not a non-empty string, amount
null/undefined, or currency not "USD"/"KHR"; with the messages the code
states; and no validation error when all preconditions hold. -/
theorem create_transaction_validation_spec (p : CreateTransactionParams) :
    (validate_create_transaction p = none ↔
      ((∃ s, p.tran_id = .str s ∧ s ≠ "") ∧
       (∃ s, p.payment_option = .str s ∧ s ≠ "") ∧
       ¬(p.amount = .null ∨ p.amount = .undefinedVal) ∧
       (p.currency = .str "USD" ∨ p.currency = .str "KHR"))) ∧
    (∀ m, validate_create_transaction p = some m →
      ∀ k mid rt tr, create_transaction_run k mid rt p tr = .error (.validationErr m)) ∧
    (¬(∃ s, p.tran_id = .str s ∧ s ≠ "") →
      validate_create_transaction p =
        some ("create_transaction: " ++ "tran_id is required and must be a string")) ∧
    ((∃ s, p.tran_id = .str s ∧ s ≠ "") →
      ¬(∃ s, p.payment_option = .str s ∧ s ≠ "") →
      validate_create_transaction p =
        some ("create_transaction: " ++ "payment_option is required and must be a string")) ∧
    ((∃ s, p.tran_id = .str s ∧ s ≠ "") →
      (∃ s, p.payment_option = .str s ∧ s ≠ "") →
      (p.amount = .null ∨ p.amount = .undefinedVal) →
      validate_create_transaction p = some ("create_transaction: " ++ "amount is required")) ∧
    ((∃ s, p.tran_id = .str s ∧ s ≠ "") →
      (∃ s, p.payment_option = .str s ∧ s ≠ "") →
      ¬(p.amount = .null ∨ p.amount = .undefinedVal) →
      ¬(p.currency = .str "USD" ∨ p.currency = .str "KHR") →
      validate_create_transaction p =
        some ("create_transaction: " ++
          "currency is required and must be \"USD\" or \"KHR\"")) := by
  have hT := str_check_iff p.tran_id
  have hP := str_check_iff p.payment_option
  have hA := amount_check_iff p.amount
  have hC := currency_check_iff p.currency
  refine ⟨?_, ?_, ?_, ?_, ?_, ?_⟩
  · cases e1 : (!truthy p.tran_id || typeof p.tran_id != "string") <;>
      cases e2 : (!truthy p.payment_option || typeof p.payment_option != "string") <;>
        cases e3 : (strictEqUndefinedVal p.amount || strictEqNull p.amount) <;>
          cases e4 : (!truthy p.currency ||
              (!strictEqStr p.currency "USD" && !strictEqStr p.currency "KHR")) <;>
            simp_all [validate_create_transaction] <;> assumption
  · intro m hm k mid rt tr
    simp [create_transaction_run, hm]
  · intro h
    rw [← hT, Bool.not_eq_false] at h
    simp [validate_create_transaction, h]
  · intro h1 h2
    rw [← hT] at h1
    rw [← hP, Bool.not_eq_false] at h2
    simp [validate_create_transaction, h1, h2]
  · intro h1 h2 h3
    rw [← hT] at h1
    rw [← hP] at h2
    rw [← hA] at h3
    simp [validate_create_transaction, h1, h2, h3]
  · intro h1 h2 h3 h4
    rw [← hT] at h1
    rw [← hP] at h2
    rw [← hA, Bool.not_eq_true] at h3
    rw [← hC, Bool.not_eq_false] at h4
    simp [validate_create_transaction, h1, h2, h3, h4]

/-- Witness for C5: the validation outcomes at concrete inputs — a valid
input passes, and a currency of "EUR" fails with the currency message. -/
theorem create_transaction_validation_spec_witness :
    validate_create_transaction minimalParams = none ∧
    validate_create_transaction
        { tran_id := .str "t", payment_option := .str "abapay",
          amount := .num 1, currency := .str "EUR" } =
      some ("create_transaction: " ++
        "currency is required and must be \"USD\" or \"KHR\"") ∧
    create_transaction_run "k" "m" "20240101000000"
        { tran_id := .undefinedVal } (.success (.obj [])) =
      .error (.validationErr
        ("create_transaction: " ++ "tran_id is required and must be a string")) :=
  ⟨(create_transaction_validation_spec minimalParams).1.mpr
      ⟨⟨"t", rfl, by decide⟩, ⟨"abapay", rfl, by decide⟩, by simp [minimalParams],
        Or.inl rfl⟩,
    (create_transaction_validation_spec _).2.2.2.2.2
      ⟨"t", rfl, by decide⟩ ⟨"abapay", rfl, by decide⟩ (by simp) (by simp),
    (create_transaction_validation_spec _).2.1 _
      ((create_transaction_validation_spec _).2.2.1 (by simp)) "k" "m"
      "20240101000000" (.success (.obj []))⟩

/-- The optional-date check `v && typeof v !== "string"` is quiet exactly
when the value is falsy or a string. -/
theorem date_check_iff (v : JVal) :
    (truthy v && typeof v != "string") = false ↔
      (truthy v = false ∨ typeof v = "string") := by
  cases v <;> simp [truthy, typeof]

/-- Counterexample to C6 as stated: `from_date = 0` is present (not
undefined) and is not a string, yet `transaction_list` raises no
validation error, because the code tests truthiness rather than
presence.  The same holds for `false` and for the empty string. -/
theorem transaction_list_validation_counterexample :
    validate_transaction_list { from_date := .num 0 } = none ∧
    ({ from_date := JVal.num 0 : TransactionListParams }).from_date ≠ .undefinedVal ∧
    typeof ({ from_date := JVal.num 0 : TransactionListParams }).from_date ≠ "string" := by
  refine ⟨rfl, by simp, by simp [typeof]⟩

/-- Claim C6 (amended): `transaction_list` raises a validation error
exactly when `from_date` is truthy and not a string, or `from_date`
passes and `to_date` is truthy and not a string — with the offending
field named in the message; falsy non-string values pass; no other
validation is performed, and all five parameters may be absent. -/
theorem transaction_list_validation_spec (p : TransactionListParams) :
    (validate_transaction_list p = none ↔
      ((truthy p.from_date = false ∨ typeof p.from_date = "string") ∧
       (truthy p.to_date = false ∨ typeof p.to_date = "string"))) ∧
    (truthy p.from_date = true → typeof p.from_date ≠ "string" →
      validate_transaction_list p =
        some ("transaction_list: " ++ "from_date must be a string in YYYYMMDD format")) ∧
    ((truthy p.from_date = false ∨ typeof p.from_date = "string") →
      truthy p.to_date = true → typeof p.to_date ≠ "string" →
      validate_transaction_list p =
        some ("transaction_list: " ++ "to_date must be a string in YYYYMMDD format")) ∧
    (∀ m, validate_transaction_list p = some m →
      ∀ k mid rt tr, transaction_list_run k mid rt p tr = .error (.validationErr m)) ∧
    validate_transaction_list {} = none := by
  have hf := date_check_iff p.from_date
  have ht := date_check_iff p.to_date
  refine ⟨?_, ?_, ?_, ?_, rfl⟩
  · have key : validate_transaction_list p = none ↔
        ((truthy p.from_date && typeof p.from_date != "string") = false ∧
         (truthy p.to_date && typeof p.to_date != "string") = false) := by
      unfold validate_transaction_list
      cases (truthy p.from_date && typeof p.from_date != "string") <;>
        cases (truthy p.to_date && typeof p.to_date != "string") <;> simp
    rw [key, hf, ht]
  · intro h1 h2
    simp [validate_transaction_list, h1, h2]
  · intro h1 h2 h3
    have e1 : (truthy p.from_date && typeof p.from_date != "string") = false := by
      rcases h1 with h | h <;> simp [h]
    simp only [validate_transaction_list, e1, Bool.false_eq_true, if_false]
    simp [h2, h3]
  · intro m hm k mid rt tr
    simp [transaction_list_run, hm]

/-- Witness for C6 (amended) at the spec's concrete input
`{from_date: 20240101}`: a truthy non-string number raises the
from_date message. -/
theorem transaction_list_validation_spec_witness :
    validate_transaction_list { from_date := .num 20240101 } =
      some ("transaction_list: " ++ "from_date must be a string in YYYYMMDD format") :=
  (transaction_list_validation_spec { from_date := .num 20240101 }).2.1 rfl (by simp [typeof])

/-- Counterexample to C7 as stated: a response body whose `code` field is
present but the empty string yields `errorCode = null`, not that value,
because the constructor evaluates `response?.code || null`. -/
theorem payWayError_errorCode_counterexample :
    (mkPayWayError "m" (.obj [("code", .str "")]) (some 400)).errorCode = .null ∧
    getProp (.obj [("code", .str "")]) "code" = .str "" ∧
    JVal.null ≠ .str "" := by
  refine ⟨rfl, rfl, by nofun⟩

/-- Claim C7 (amended): the raised `PayWayError`'s `errorCode` equals the
response body's `code` field when that field's value is truthy, and is
null when the field is absent or falsy. -/
theorem payWayError_errorCode_spec (err : AxiosErr) (r : AxResponse)
    (h : err.response = some r) :
    (truthy (optChainProp r.data "code") = true →
      (handle_error err).errorCode = optChainProp r.data "code") ∧
    (truthy (optChainProp r.data "code") = false →
      (handle_error err).errorCode = .null) := by
  constructor <;> intro hc <;>
    simp [handle_error, h, mkPayWayError, PayWayErr.errorCode, jsOr, hc]

/-- A sample gateway failure whose body carries a truthy code. -/
def codeSampleResp : AxResponse := { status := 400, data := .obj [("code", .str "PW400")] }

/-- The transport failure wrapping `codeSampleResp`. -/
def codeSampleErr : AxiosErr :=
  { response := some codeSampleResp, request := true, message := "boom" }

/-- A sample gateway failure whose body has no code field. -/
def noCodeSampleResp : AxResponse := { status := 400, data := .obj [] }

/-- The transport failure wrapping `noCodeSampleResp`. -/
def noCodeSampleErr : AxiosErr :=
  { response := some noCodeSampleResp, request := true, message := "boom" }

/-- Witness for C7 (amended): a truthy code is carried through, a missing
code yields null. -/
theorem payWayError_errorCode_spec_witness :
    (handle_error codeSampleErr).errorCode =
      optChainProp (.obj [("code", .str "PW400")]) "code" ∧
    (handle_error noCodeSampleErr).errorCode = .null :=
  ⟨(payWayError_errorCode_spec codeSampleErr codeSampleResp rfl).1 rfl,
    (payWayError_errorCode_spec noCodeSampleErr noCodeSampleResp rfl).2 rfl⟩

/-- A transport failure whose response body is the (falsy) empty string. -/
def emptyBodyErr : AxiosErr :=
  { response := some { status := 500, data := .str "" }, request := true, message := "boom" }

/-- Counterexample to C4 as stated: when the response body is the falsy
empty string, the raised error's `details` is null rather than the full
response body, because the constructor evaluates `response || null`. -/
theorem handle_error_details_counterexample :
    (handle_error emptyBodyErr).details = .null ∧
    emptyBodyErr.response.map (fun r => r.data) = some (.str "") ∧
    JVal.null ≠ .str "" := by
  refine ⟨rfl, rfl, by nofun⟩

/-- Claim C4 (amended): failures are mapped identically in all three
operations.  With a response: a `PayWayError` whose statusCode is the
HTTP status, whose details is the response body when truthy (null
otherwise), and whose message falls back from the body's message field to
the underlying error's message to "Unknown error".  Request made, no
response: a `PayWayRequestError` with the fixed network message and the
underlying cause.  Otherwise: a `PayWayRequestError` with "Request
error: <message>" and the cause. -/
theorem handle_error_mapping (err : AxiosErr) :
    (∀ r, err.response = some r →
      (∃ m ec, handle_error err =
        .payWayError m ec (some r.status) (if truthy r.data then r.data else .null)) ∧
      (truthy (optChainProp r.data "message") = true →
        (handle_error err).message =
          "PayWay API error: " ++ jsToString (optChainProp r.data "message")) ∧
      (truthy (optChainProp r.data "message") = false → err.message ≠ "" →
        (handle_error err).message = "PayWay API error: " ++ err.message) ∧
      (truthy (optChainProp r.data "message") = false → err.message = "" →
        (handle_error err).message = "PayWay API error: " ++ "Unknown error")) ∧
    (err.response = none → err.request = true →
      handle_error err =
        .payWayRequestError "Network error: No response received from PayWay API" err) ∧
    (err.response = none → err.request = false →
      handle_error err = .payWayRequestError ("Request error: " ++ err.message) err) ∧
    (∀ k mid rt p e, validate_create_transaction p = none →
      create_transaction_run k mid rt p (.failure e) = .error (.apiErr (handle_error e))) ∧
    (∀ k mid rt tid e, validate_check_transaction tid = none →
      check_transaction_run k mid rt tid (.failure e) = .error (.apiErr (handle_error e))) ∧
    (∀ k mid rt p e, validate_transaction_list p = none →
      transaction_list_run k mid rt p (.failure e) = .error (.apiErr (handle_error e))) := by
  refine ⟨?_, ?_, ?_, ?_, ?_, ?_⟩
  · intro r hr
    refine ⟨?_, ?_, ?_, ?_⟩
    · simp only [handle_error, hr, mkPayWayError, jsOr]
      exact ⟨_, _, rfl⟩
    · intro hm
      simp [handle_error, hr, mkPayWayError, PayWayErr.message, jsOr, hm]
    · intro hm hne
      simp only [handle_error, hr, mkPayWayError, PayWayErr.message, jsOr, hm,
        Bool.false_eq_true, if_false]
      simp [truthy, hne, jsToString]
    · intro hm he
      simp only [handle_error, hr, mkPayWayError, PayWayErr.message, jsOr, hm,
        Bool.false_eq_true, if_false]
      simp [truthy, he, jsToString]
  · intro h1 h2
    simp [handle_error, h1, h2]
  · intro h1 h2
    simp [handle_error, h1, h2]
  · intro k mid rt p e hv
    simp [create_transaction_run, hv]
  · intro k mid rt tid e hv
    simp [check_transaction_run, hv]
  · intro k mid rt p e hv
    simp [transaction_list_run, hv]

/-- The gateway failure of the test suite: HTTP 400 with message and code. -/
def msgSampleResp : AxResponse :=
  { status := 400,
    data := .obj [("message", .str "Invalid transaction ID"), ("code", .str "INVALID_TXN_ID")] }

/-- The transport failure wrapping `msgSampleResp`. -/
def msgSampleErr : AxiosErr :=
  { response := some msgSampleResp, request := false, message := "Request failed" }

/-- A transport failure where a request was made but nothing came back. -/
def noRespErr : AxiosErr := { response := none, request := true, message := "socket hang up" }

/-- A transport failure before any request was made. -/
def setupErr : AxiosErr := { response := none, request := false, message := "bad config" }

/-- Witness for C4 (amended) at the test suite's concrete failures. -/
theorem handle_error_mapping_witness :
    (handle_error msgSampleErr).message =
      "PayWay API error: " ++ jsToString (optChainProp msgSampleResp.data "message") ∧
    handle_error noRespErr =
      .payWayRequestError "Network error: No response received from PayWay API" noRespErr ∧
    handle_error setupErr =
      .payWayRequestError ("Request error: " ++ setupErr.message) setupErr ∧
    create_transaction_run "k" "m" "20240101000000" minimalParams (.failure noRespErr) =
      .error (.apiErr (handle_error noRespErr)) :=
  ⟨((handle_error_mapping msgSampleErr).1 msgSampleResp rfl).2.1 rfl,
    (handle_error_mapping noRespErr).2.1 rfl rfl,
    (handle_error_mapping setupErr).2.2.1 rfl rfl,
    (handle_error_mapping noRespErr).2.2.2.1 "k" "m" "20240101000000" minimalParams
      noRespErr rfl⟩

/-- Base64 digits decode back to their 6-bit value. -/
theorem b64Val_b64Char : ∀ n, n < 64 → b64Val (b64Char n) = n := by decide

/-- Base64 digits are never the padding character. -/
theorem b64Char_ne_pad : ∀ n, n < 64 → b64Char n ≠ '=' := by decide

/-- Base64 decoding inverts encoding on byte sequences. -/
theorem base64_roundtrip :
    ∀ (l : List Nat), (∀ b ∈ l, b < 256) → base64DecodeChars (base64EncodeChars l) = l
  | [], _ => rfl
  | [b1], h => by
      have hb1 : b1 < 256 := h b1 (by simp)
      simp only [base64EncodeChars, base64DecodeChars, ite_true]
      rw [b64Val_b64Char _ (by omega), b64Val_b64Char _ (by omega)]
      simp only [List.cons.injEq, and_true]
      omega
  | [b1, b2], h => by
      have hb1 : b1 < 256 := h b1 (by simp)
      have hb2 : b2 < 256 := h b2 (by simp)
      simp only [base64EncodeChars, base64DecodeChars]
      rw [if_neg (b64Char_ne_pad _ (by omega))]
      simp only [ite_true]
      rw [b64Val_b64Char _ (by omega), b64Val_b64Char _ (by omega),
        b64Val_b64Char _ (by omega)]
      simp only [List.cons.injEq, and_true]
      omega
  | b1 :: b2 :: b3 :: rest, h => by
      have hb1 : b1 < 256 := h b1 (by simp)
      have hb2 : b2 < 256 := h b2 (by simp)
      have hb3 : b3 < 256 := h b3 (by simp)
      have ih := base64_roundtrip rest (fun b hb => h b (by simp [hb]))
      simp only [base64EncodeChars, base64DecodeChars]
      rw [if_neg (b64Char_ne_pad _ (by omega)), if_neg (b64Char_ne_pad _ (by omega))]
      rw [b64Val_b64Char _ (by omega), b64Val_b64Char _ (by omega),
        b64Val_b64Char _ (by omega), b64Val_b64Char _ (by omega)]
      rw [ih]
      simp only [List.cons.injEq]
      exact ⟨by omega, by omega, by omega, trivial⟩

/-- Every byte of a UTF-8 encoded code point is below 256. -/
theorem utf8EncodeChar_lt (c : Char) : ∀ b ∈ utf8EncodeChar c, b < 256 := by
  have hc : c.toNat < 1114112 := by
    rcases c with ⟨⟨⟨v, hv⟩⟩, hvalid⟩
    rcases hvalid with h | ⟨h1, h2⟩
    · exact Nat.lt_trans h (by decide)
    · exact h2
  intro b hb
  unfold utf8EncodeChar at hb
  split_ifs at hb with h1 h2 h3
  · simp at hb
    omega
  · simp at hb
    rcases hb with rfl | rfl <;> omega
  · simp at hb
    rcases hb with rfl | rfl | rfl <;> omega
  · simp at hb
    rcases hb with rfl | rfl | rfl | rfl <;> omega

/-- Every byte of a UTF-8 encoded string is below 256. -/
theorem utf8Bytes_lt (s : String) : ∀ b ∈ utf8Bytes s, b < 256 := by
  intro b hb
  simp only [utf8Bytes, List.mem_flatten] at hb
  rcases hb with ⟨l, hl, hbl⟩
  simp only [List.mem_map] at hl
  rcases hl with ⟨c, _, rfl⟩
  exact utf8EncodeChar_lt c b hbl

/-- Claim C8: in `create_transaction`, a string `return_url` is replaced
by its base64 encoding and base64-decoding the transmitted value yields
the original string's bytes; a string `return_deeplink` or `items` is
base64-encoded directly; a non-null object (including an array)
`return_deeplink` or `items` is JSON-serialized then base64-encoded;
null and non-string non-object values pass through unchanged. -/
theorem create_transaction_base64_spec :
    (∀ s, encode_return_url (.str s) = .str (base64 s)) ∧
    (∀ s, encode_return_deeplink (.str s) = .str (base64 s)) ∧
    (∀ s, encode_items (.str s) = .str (base64 s)) ∧
    (∀ es, encode_return_deeplink (.arr es) = .str (base64 (jsonStringify (.arr es))) ∧
      encode_items (.arr es) = .str (base64 (jsonStringify (.arr es)))) ∧
    (∀ fs, encode_return_deeplink (.obj fs) = .str (base64 (jsonStringify (.obj fs))) ∧
      encode_items (.obj fs) = .str (base64 (jsonStringify (.obj fs)))) ∧
    (∀ v, typeof v ≠ "string" → typeof v ≠ "object" →
      encode_return_url v = v ∧ encode_return_deeplink v = v ∧ encode_items v = v) ∧
    (encode_return_url .null = .null ∧ encode_return_deeplink .null = .null ∧
      encode_items .null = .null) ∧
    (∀ s, base64Decode (base64 s) = utf8Bytes s) := by
  refine ⟨fun s => rfl, fun s => rfl, fun s => rfl, fun es => ⟨rfl, rfl⟩,
    fun fs => ⟨rfl, rfl⟩, ?_, ⟨rfl, rfl, rfl⟩, ?_⟩
  · intro v h1 h2
    cases v <;> simp_all [typeof] <;> exact ⟨rfl, rfl, rfl⟩
  · intro s
    exact base64_roundtrip (utf8Bytes s) (utf8Bytes_lt s)

/-- Witness for C8 at the specification's concrete URL. -/
theorem create_transaction_base64_spec_witness :
    encode_return_url (.str "https://example.com/callback") =
      .str (base64 "https://example.com/callback") ∧
    base64Decode (base64 "https://example.com/callback") =
      utf8Bytes "https://example.com/callback" ∧
    (encode_return_url (.num 5) = .num 5 ∧ encode_return_deeplink (.num 5) = .num 5 ∧
      encode_items (.num 5) = .num 5) :=
  ⟨create_transaction_base64_spec.1 "https://example.com/callback",
    create_transaction_base64_spec.2.2.2.2.2.2.2 "https://example.com/callback",
    create_transaction_base64_spec.2.2.2.2.2.1 (.num 5) (by simp [typeof]) (by simp [typeof])⟩

/-- The error component of an operation's outcome, as a function of the
validation result and the transport outcome alone. -/
def runOutcome (v : Option String) (tr : TransportOutcome) : Option ClientError :=
  match v with
  | some m => some (.validationErr m)
  | none =>
      match tr with
      | .success _ => none
      | .failure e => some (.apiErr (handle_error e))

/-- The error escaping `create_transaction` depends only on the
validation result and the transport outcome. -/
theorem errOf_create_transaction_run (k mid rt : String)
    (pc : CreateTransactionParams) (tr : TransportOutcome) :
    errOf (create_transaction_run k mid rt pc tr) =
      runOutcome (validate_create_transaction pc) tr := by
  unfold create_transaction_run runOutcome
  cases validate_create_transaction pc <;> cases tr <;> rfl

/-- The error escaping `check_transaction` depends only on the validation
result and the transport outcome. -/
theorem errOf_check_transaction_run (k mid rt : String) (tid : JVal)
    (tr : TransportOutcome) :
    errOf (check_transaction_run k mid rt tid tr) =
      runOutcome (validate_check_transaction tid) tr := by
  unfold check_transaction_run runOutcome
  cases validate_check_transaction tid <;> cases tr <;> rfl

/-- The error escaping `transaction_list` depends only on the validation
result and the transport outcome. -/
theorem errOf_transaction_list_run (k mid rt : String) (pl : TransactionListParams)
    (tr : TransportOutcome) :
    errOf (transaction_list_run k mid rt pl tr) =
      runOutcome (validate_transaction_list pl) tr := by
  unfold transaction_list_run runOutcome
  cases validate_transaction_list pl <;> cases tr <;> rfl

/-- Claim C9: the secret api_key never influences any raised error: two
clients differing only in api_key produce identical validation errors and
identical mapped gateway/transport errors (all fields: message,
errorCode, statusCode, details, originalFailure) for the same call and
the same transport outcome; and every validation message is one of four
fixed strings that do not depend on the key. -/
theorem api_key_noninterference (k1 k2 mid rt : String)
    (pc : CreateTransactionParams) (tid : JVal) (pl : TransactionListParams)
    (tr : TransportOutcome) :
    errOf (create_transaction_run k1 mid rt pc tr) =
      errOf (create_transaction_run k2 mid rt pc tr) ∧
    errOf (check_transaction_run k1 mid rt tid tr) =
      errOf (check_transaction_run k2 mid rt tid tr) ∧
    errOf (transaction_list_run k1 mid rt pl tr) =
      errOf (transaction_list_run k2 mid rt pl tr) ∧
    (∀ m, errOf (create_transaction_run k1 mid rt pc tr) = some (.validationErr m) →
      m = "create_transaction: tran_id is required and must be a string" ∨
      m = "create_transaction: payment_option is required and must be a string" ∨
      m = "create_transaction: amount is required" ∨
      m = "create_transaction: currency is required and must be \"USD\" or \"KHR\"") := by
  refine ⟨?_, ?_, ?_, ?_⟩
  · rw [errOf_create_transaction_run, errOf_create_transaction_run]
  · rw [errOf_check_transaction_run, errOf_check_transaction_run]
  · rw [errOf_transaction_list_run, errOf_transaction_list_run]
  · intro m hm
    rw [errOf_create_transaction_run] at hm
    rcases hval : validate_create_transaction pc with _ | m'
    · rw [hval] at hm
      cases tr <;> simp [runOutcome] at hm
    · rw [hval] at hm
      simp only [runOutcome, Option.some.injEq, ClientError.validationErr.injEq] at hm
      subst hm
      unfold validate_create_transaction at hval
      split_ifs at hval <;> simp only [Option.some.injEq] at hval <;> subst hval <;> tauto

/-- Witness for C9: key-independence of a concrete network failure and a
concrete validation failure. -/
theorem api_key_noninterference_witness :
    errOf (create_transaction_run "key-one" "m" "20240101000000" minimalParams
        (.failure noRespErr)) =
      errOf (create_transaction_run "key-two" "m" "20240101000000" minimalParams
        (.failure noRespErr)) ∧
    ("create_transaction: amount is required" =
        "create_transaction: tran_id is required and must be a string" ∨
      "create_transaction: amount is required" =
        "create_transaction: payment_option is required and must be a string" ∨
      "create_transaction: amount is required" = "create_transaction: amount is required" ∨
      "create_transaction: amount is required" =
        "create_transaction: currency is required and must be \"USD\" or \"KHR\"") :=
  ⟨(api_key_noninterference "key-one" "key-two" "m" "20240101000000" minimalParams
      .undefinedVal {} (.failure noRespErr)).1,
    (api_key_noninterference "k" "k" "m" "20240101000000"
      { tran_id := .str "t", payment_option := .str "abapay", currency := .str "USD" }
      .undefinedVal {} (.success (.obj []))).2.2.2
      "create_transaction: amount is required" rfl⟩

end PayWay
